import Mathlib

/-!
Shallow embedding of `app.py`, a Flask FAQ service.

The service reads `faq.json` on every request, serves the whole document
(`GET /api/faq`), one entry (`GET /api/faq/<string:faq_key>`), and a health
probe (`GET /health`), with error handlers registered for HTTP 404, 500
and 405 that rewrite those responses into the JSON envelope
`{"error_code": CODE, "message": description}`.

Embedding choices, each justified against the Python/Flask semantics:

* JSON values are the inductive `Json`; an object is its field list in
  order (the `dict` produced by `json.load` has pairwise-distinct keys,
  and lookup is the first match).
* The filesystem interaction of `load_faq_data` (the `os.path.exists`
  check, `open`, `json.load`) sits at the OS/library boundary, so its
  observable outcome is the model input `FileState`: the file is absent,
  present but not valid JSON (`json.JSONDecodeError`), present but the
  read fails otherwise (any other `Exception`), or present and parsed to
  a `Json` document.
* `flask.abort(500, description=...)` raises
  `werkzeug.exceptions.InternalServerError`, a subclass of
  `werkzeug.exceptions.HTTPException`, which is itself a subclass of
  Python's `Exception`.  Control flow by exception is modelled with
  `Except PyExn`; a view function that lets the exception escape hands it
  to Flask, which runs the registered error handler for its status code.
  Crucially, `except Exception` in `health_check` catches the
  `HTTPException` raised by `abort` before Flask ever sees it.
* Routing: werkzeug matches the decoded path split at `/` against the
  three registered rules; `<string:faq_key>` accepts exactly one
  non-empty segment.  A request is therefore a method plus a list of
  decoded segments.  An unmatched path gives werkzeug's `NotFound` for
  every method, and a matched path with a disallowed method gives
  `MethodNotAllowed`, both carrying werkzeug's default descriptions.
  Two methods beyond GET are allowed on these GET-only rules: werkzeug
  automatically adds HEAD to every GET rule (the GET view runs, its
  status stands, and the body is suppressed when the response is
  written), and Flask auto-provides an OPTIONS responder (200, empty
  body, the Allow header not being modelled).  The empty non-JSON wire
  body of those two is rendered as `Json.str ""`.
-/

/-- A JSON value.  Objects keep their fields as an ordered association list. -/
inductive Json where
  | null : Json
  | bool : Bool → Json
  | num : Int → Json
  | str : String → Json
  | arr : List Json → Json
  | obj : List (String × Json) → Json

/-- First-match lookup in an object's field list (Python `dict` access;
`json.load` never produces a duplicate key). -/
def lookupKey : List (String × Json) → String → Option Json
  | [], _ => none
  | (k, v) :: rest, key => if k == key then some v else lookupKey rest key

/-- What `load_faq_data` can observe of `faq.json` through
`os.path.exists`, `open` and `json.load`. -/
inductive FileState where
  | absent : FileState
  | invalidJson : FileState
  | unreadable : FileState
  | validJson : Json → FileState

/-- A Python exception escaping a view function: either a werkzeug
`HTTPException` carrying a status and a description (raised by
`flask.abort`), or any other uncaught exception (e.g. `TypeError`). -/
inductive PyExn where
  | httpExn : Nat → String → PyExn
  | otherExn : PyExn
deriving Repr, DecidableEq

def FAQ_FILE : String := "faq.json"

/-- `load_faq_data` (app.py lines 11-36): missing file, `JSONDecodeError`
and any other failure each `abort(500, description=...)` with their own
description; otherwise the parsed document is returned as-is, with no
structural validation. -/
def load_faq_data : FileState → Except PyExn Json
  | .absent =>
      .error (.httpExn 500
        ("Server configuration error: Data file \x27" ++ FAQ_FILE ++ "\x27 is missing."))
  | .invalidJson =>
      .error (.httpExn 500
        ("Error decoding data from \x27" ++ FAQ_FILE ++ "\x27. Please check its format."))
  | .unreadable =>
      .error (.httpExn 500 "An unexpected error occurred while trying to load data.")
  | .validJson doc => .ok doc

/-- An HTTP response as Flask serializes it here: a status code and a
`jsonify`-produced JSON body. -/
structure Response where
  status : Nat
  body : Json

/-- HTTP methods a client can send against this API.  HEAD and OPTIONS
are included because werkzeug registers them automatically on the
app's GET-only rules and answers them itself. -/
inductive Method where
  | GET : Method
  | HEAD : Method
  | OPTIONS : Method
  | POST : Method
  | PUT : Method
  | DELETE : Method
  | PATCH : Method
deriving Repr, DecidableEq

/-- A request after werkzeug decodes the path and splits it at `/`:
segments never contain a slash. -/
structure Request where
  method : Method
  path : List String

/-- Python truthiness of `a or b` on strings: the empty string is falsy.
Used for `error.description or "..."` in the error handlers. -/
def pyOr (s fallback : String) : String :=
  if s == "" then fallback else s

/-- The JSON error envelope produced by the three registered error
handlers. -/
def envelopeBody (code message : String) : Json :=
  Json.obj [("error_code", Json.str code), ("message", Json.str message)]

/-- `not_found_error` (app.py lines 87-97). -/
def not_found_error (description : String) : Response :=
  ⟨404, envelopeBody "NOT_FOUND"
    (pyOr description "The requested resource was not found on this server.")⟩

/-- `internal_error` (app.py lines 99-109). -/
def internal_error (description : String) : Response :=
  ⟨500, envelopeBody "INTERNAL_SERVER_ERROR"
    (pyOr description
      "An unexpected error occurred on the server. Please try again later.")⟩

/-- `method_not_allowed_error` (app.py lines 111-120). -/
def method_not_allowed_error (description : String) : Response :=
  ⟨405, envelopeBody "METHOD_NOT_ALLOWED"
    (pyOr description "The method is not allowed for the requested URL.")⟩

/-- Python `faq_key in faq_data`: key membership on a `dict`, element
equality on a `list` (a string equals only an equal string among JSON
values), substring test on a `str`, and `TypeError` on the remaining
JSON types (`None`, `bool`, numbers are not containers). -/
def pyContains (key : String) : Json → Except PyExn Bool
  | .obj fields => .ok (lookupKey fields key).isSome
  | .arr elems => .ok (elems.any (fun e => match e with
      | .str s => s == key
      | _ => false))
  | .str s => .ok (decide (key.toList <:+: s.toList))
  | _ => .error .otherExn

/-- Python `faq_data[faq_key]` with a string subscript: `dict` lookup
(`KeyError` if absent — unreachable behind the `in` guard), `TypeError`
on every other JSON type. -/
def pyGetItem (key : String) : Json → Except PyExn Json
  | .obj fields =>
      match lookupKey fields key with
      | some v => .ok v
      | none => .error .otherExn
  | _ => .error .otherExn

/-- `health_check` (app.py lines 40-58).  The view wraps the loader call
in `try ... except Exception`; since `abort` raises a
`werkzeug.exceptions.HTTPException`, which subclasses `Exception`, every
loader failure lands in the `except` branch and returns the 503 body —
the exception never reaches Flask's error handlers.  No exception
escapes this view. -/
def health_check (fs : FileState) : Except PyExn Response :=
  match load_faq_data fs with
  | .ok _ =>
      .ok ⟨200, Json.obj [("status", Json.str "ok"),
        ("message", Json.str "API is healthy and data file is accessible.")]⟩
  | .error _ =>
      .ok ⟨503, Json.obj [("status", Json.str "error"),
        ("message", Json.str "API is unhealthy or data source is unavailable.")]⟩

/-- `get_all_faq` (app.py lines 61-67): loader failures propagate to
Flask uncaught. -/
def get_all_faq (fs : FileState) : Except PyExn Response :=
  match load_faq_data fs with
  | .error e => .error e
  | .ok faq_data => .ok ⟨200, faq_data⟩

/-- `get_specific_faq` (app.py lines 69-82): loader failures propagate;
a present key is served with 200, an absent key gets the view's own
404 body, which is returned directly and never passes through the
`errorhandler(404)` rewrite. -/
def get_specific_faq (fs : FileState) (faq_key : String) : Except PyExn Response :=
  match load_faq_data fs with
  | .error e => .error e
  | .ok faq_data =>
      match pyContains faq_key faq_data with
      | .error e => .error e
      | .ok true =>
          match pyGetItem faq_key faq_data with
          | .error e => .error e
          | .ok v => .ok ⟨200, v⟩
      | .ok false =>
          .ok ⟨404, Json.obj [("error", Json.str "FAQ item not found"),
            ("requested_key", Json.str faq_key)]⟩

/-- The three URL rules of the app, in werkzeug's segment view:
`/health`, `/api/faq`, and `/api/faq/<string:faq_key>` whose converter
takes exactly one non-empty slash-free segment. -/
inductive RouteMatch where
  | health : RouteMatch
  | allFaq : RouteMatch
  | oneFaq : String → RouteMatch

def matchRoute : List String → Option RouteMatch
  | ["health"] => some .health
  | ["api", "faq"] => some .allFaq
  | ["api", "faq", k] => if k == "" then none else some (.oneFaq k)
  | _ => none

/-- Werkzeug's default `NotFound` description. -/
def notFoundDefaultDescription : String :=
  "The requested URL was not found on the server. If you entered the URL manually please check your spelling and try again."

/-- Werkzeug's default `MethodNotAllowed` description. -/
def methodNotAllowedDefaultDescription : String :=
  "The method is not allowed for the requested URL."

/-- Werkzeug's default `InternalServerError` description, used when Flask
wraps an unhandled non-HTTP exception. -/
def internalServerErrorDefaultDescription : String :=
  "The server encountered an internal error and was unable to complete your request. Either the server is overloaded or there is an error in the application."

/-- What Flask does with an exception escaping a view: run the error
handler registered for the status of an `HTTPException` (this app only
ever aborts with 500; 404/405 handlers are included for totality, and an
`HTTPException` with any other status would be serialized by werkzeug
itself), and wrap any other exception as an `InternalServerError` with
the werkzeug default description before running the 500 handler. -/
def handle_exception : PyExn → Response
  | .httpExn 404 d => not_found_error d
  | .httpExn 405 d => method_not_allowed_error d
  | .httpExn 500 d => internal_error d
  | .httpExn s d => ⟨s, Json.str d⟩
  | .otherExn => internal_error internalServerErrorDefaultDescription

/-- The matched view followed by Flask's exception handling for
anything the view lets escape. -/
def runView (fs : FileState) (r : RouteMatch) : Response :=
  match (match r with
    | .health => health_check fs
    | .allFaq => get_all_faq fs
    | .oneFaq k => get_specific_faq fs k) with
  | .ok resp => resp
  | .error e => handle_exception e

/-- Full request processing: werkzeug routing, then method handling on
the matched rule.  GET runs the view.  HEAD is auto-added by werkzeug to
every GET rule: the GET view runs and its status stands, but the body is
suppressed when the response is written (rendered as the empty string).
OPTIONS is auto-provided by Flask: 200 with an empty body, without
running any view.  Every other method raises `MethodNotAllowed`, which
the registered 405 handler rewrites into the envelope.  An unmatched
path raises `NotFound` for every method. -/
def dispatch (fs : FileState) (req : Request) : Response :=
  match matchRoute req.path with
  | none => not_found_error notFoundDefaultDescription
  | some r =>
      match req.method with
      | .GET => runView fs r
      | .HEAD => ⟨(runView fs r).status, Json.str ""⟩
      | .OPTIONS => ⟨200, Json.str ""⟩
      | _ => method_not_allowed_error methodNotAllowedDefaultDescription

/-- Field access on a JSON object body, for stating facts about response
shapes. -/
def Json.getField : Json → String → Option Json
  | .obj fields, key => lookupKey fields key
  | _, _ => none

/-- Does this body have string value `val` at field `key`?  (Bool-valued
so counterexamples stay decidable.) -/
def hasStrField (j : Json) (key val : String) : Bool :=
  match j.getField key with
  | some (.str s) => s == val
  | _ => false

/-- Does this body carry an `error_code` field at all — the signature of
the generic error envelope? -/
def hasErrorCodeField (j : Json) : Bool :=
  (j.getField "error_code").isSome

/-- Did the loader fail on this file state? -/
def loadFails (fs : FileState) : Bool :=
  match load_faq_data fs with
  | .error _ => true
  | .ok _ => false

/-- Is this JSON value an object? -/
def Json.isObj : Json → Bool
  | .obj _ => true
  | _ => false

/-- C1: for every successfully loaded document and every key `k` present
in it, `GET /api/faq/{k}` returns 200 with exactly the document's value
at `k`, whatever JSON value that is.  (`k` occupies one path segment, so
the `<string:faq_key>` converter requires it to be non-empty.) -/
theorem C1_present_key_served (kvs : List (String × Json)) (k : String) (v : Json)
    (hk : k ≠ "") (hv : lookupKey kvs k = some v) :
    dispatch (.validJson (Json.obj kvs)) ⟨.GET, ["api", "faq", k]⟩ = ⟨200, v⟩ := by
  simp [dispatch, matchRoute, hk, runView, get_specific_faq, load_faq_data, pyContains, hv,
    pyGetItem]

theorem C1_present_key_served_witness :
    ("price_cut" : String) ≠ "" ∧
    lookupKey [("price_cut", Json.str "We reduced prices in March.")] "price_cut" =
      some (Json.str "We reduced prices in March.") ∧
    dispatch (.validJson (Json.obj [("price_cut", Json.str "We reduced prices in March.")]))
      ⟨.GET, ["api", "faq", "price_cut"]⟩ = ⟨200, Json.str "We reduced prices in March."⟩ :=
  ⟨by decide, rfl,
    C1_present_key_served [("price_cut", Json.str "We reduced prices in March.")]
      "price_cut" (Json.str "We reduced prices in March.") (by decide) rfl⟩

/-- C2: for every successfully loaded document and every key `k` not
present in it, `GET /api/faq/{k}` returns 404 with exactly the body
`{"error": "FAQ item not found", "requested_key": k}` — `k` verbatim —
and that body carries no `error_code` field, so it is not the generic
error envelope. -/
theorem C2_absent_key_404 (kvs : List (String × Json)) (k : String)
    (hk : k ≠ "") (habs : lookupKey kvs k = none) :
    dispatch (.validJson (Json.obj kvs)) ⟨.GET, ["api", "faq", k]⟩ =
      ⟨404, Json.obj [("error", Json.str "FAQ item not found"),
        ("requested_key", Json.str k)]⟩ ∧
    hasErrorCodeField
      (dispatch (.validJson (Json.obj kvs)) ⟨.GET, ["api", "faq", k]⟩).body = false := by
  have h : dispatch (.validJson (Json.obj kvs)) ⟨.GET, ["api", "faq", k]⟩ =
      ⟨404, Json.obj [("error", Json.str "FAQ item not found"),
        ("requested_key", Json.str k)]⟩ := by
    simp [dispatch, matchRoute, hk, runView, get_specific_faq, load_faq_data, pyContains, habs]
  refine ⟨h, ?_⟩
  rw [h]
  simp [hasErrorCodeField, Json.getField, lookupKey]

theorem C2_absent_key_404_witness :
    ("refunds" : String) ≠ "" ∧
    lookupKey [("price_cut", Json.str "We reduced prices in March.")] "refunds" = none ∧
    (dispatch (.validJson (Json.obj [("price_cut", Json.str "We reduced prices in March.")]))
      ⟨.GET, ["api", "faq", "refunds"]⟩ =
      ⟨404, Json.obj [("error", Json.str "FAQ item not found"),
        ("requested_key", Json.str "refunds")]⟩ ∧
    hasErrorCodeField
      (dispatch (.validJson (Json.obj [("price_cut", Json.str "We reduced prices in March.")]))
        ⟨.GET, ["api", "faq", "refunds"]⟩).body = false) :=
  ⟨by decide, rfl,
    C2_absent_key_404 [("price_cut", Json.str "We reduced prices in March.")]
      "refunds" (by decide) rfl⟩

/-- C3: for every well-formed data file, `GET /api/faq` returns 200 with
the entire parsed document, unchanged. -/
theorem C3_all_faq_served (doc : Json) :
    dispatch (.validJson doc) ⟨.GET, ["api", "faq"]⟩ = ⟨200, doc⟩ := rfl

/-- C10: whenever the loader succeeds, `GET /health` returns 200 with
body `{"status": "ok", "message": <string>}` — the message is the fixed
string of the source. -/
theorem C10_health_ok (doc : Json) :
    dispatch (.validJson doc) ⟨.GET, ["health"]⟩ =
      ⟨200, Json.obj [("status", Json.str "ok"),
        ("message", Json.str "API is healthy and data file is accessible.")]⟩ := rfl

/-- C4 counterexample: with the data file absent, `GET /health` does not
return 500 with the `INTERNAL_SERVER_ERROR` envelope as claimed — it
returns 503, with the handler's own `{"status": "error", ...}` body and
no `error_code` field. -/
theorem C4_counterexample :
    (dispatch .absent ⟨.GET, ["health"]⟩).status = 503 ∧
    ((dispatch .absent ⟨.GET, ["health"]⟩).status == 500) = false ∧
    hasStrField (dispatch .absent ⟨.GET, ["health"]⟩).body "status" "error" = true ∧
    hasErrorCodeField (dispatch .absent ⟨.GET, ["health"]⟩).body = false := by
  decide

/-- C4 as amended: when the data file is absent or holds invalid JSON,
`GET /api/faq` and `GET /api/faq/{k}` return 500 with the
`INTERNAL_SERVER_ERROR` envelope, but `GET /health` instead returns 503
with body `{"status": "error", "message": ...}`, because its
`except Exception` catches the loader's abort. -/
theorem C4_amended (fs : FileState) (k : String)
    (hfs : fs = .absent ∨ fs = .invalidJson) (hk : k ≠ "") :
    (dispatch fs ⟨.GET, ["api", "faq"]⟩).status = 500 ∧
    hasStrField (dispatch fs ⟨.GET, ["api", "faq"]⟩).body
      "error_code" "INTERNAL_SERVER_ERROR" = true ∧
    (dispatch fs ⟨.GET, ["api", "faq", k]⟩).status = 500 ∧
    hasStrField (dispatch fs ⟨.GET, ["api", "faq", k]⟩).body
      "error_code" "INTERNAL_SERVER_ERROR" = true ∧
    dispatch fs ⟨.GET, ["health"]⟩ =
      ⟨503, Json.obj [("status", Json.str "error"),
        ("message", Json.str "API is unhealthy or data source is unavailable.")]⟩ := by
  have hroute : matchRoute ["api", "faq", k] = some (RouteMatch.oneFaq k) := by
    simp [matchRoute, hk]
  rcases hfs with rfl | rfl <;>
    exact ⟨by decide, by decide,
      by unfold dispatch; rw [hroute]; rfl,
      by unfold dispatch; rw [hroute]; rfl, rfl⟩

theorem C4_amended_witness :
    (FileState.absent = FileState.absent ∨ FileState.absent = FileState.invalidJson) ∧
    ("refunds" : String) ≠ "" ∧
    ((dispatch .absent ⟨.GET, ["api", "faq"]⟩).status = 500 ∧
    hasStrField (dispatch .absent ⟨.GET, ["api", "faq"]⟩).body
      "error_code" "INTERNAL_SERVER_ERROR" = true ∧
    (dispatch .absent ⟨.GET, ["api", "faq", "refunds"]⟩).status = 500 ∧
    hasStrField (dispatch .absent ⟨.GET, ["api", "faq", "refunds"]⟩).body
      "error_code" "INTERNAL_SERVER_ERROR" = true ∧
    dispatch .absent ⟨.GET, ["health"]⟩ =
      ⟨503, Json.obj [("status", Json.str "error"),
        ("message", Json.str "API is unhealthy or data source is unavailable.")]⟩) :=
  ⟨Or.inl rfl, by decide, C4_amended .absent "refunds" (Or.inl rfl) (by decide)⟩

/-- C5 counterexample: with the data file present but holding invalid
JSON, the loader fails, yet `GET /health` returns 503 — not the claimed
500 envelope; the body is the 503 branch's `{"status": "error", ...}`. -/
theorem C5_counterexample :
    (dispatch .invalidJson ⟨.GET, ["health"]⟩).status = 503 ∧
    ((dispatch .invalidJson ⟨.GET, ["health"]⟩).status == 500) = false ∧
    hasStrField (dispatch .invalidJson ⟨.GET, ["health"]⟩).body "status" "error" = true ∧
    hasErrorCodeField (dispatch .invalidJson ⟨.GET, ["health"]⟩).body = false := by
  decide

/-- C5 as amended: for every loader failure during `GET /health`, the
`except Exception` clause catches the abort (werkzeug's `HTTPException`
subclasses `Exception`), so the 503 branch runs and the response is 503
with `{"status": "error", "message": ...}`; it is the 500-envelope path,
not the 503 branch, that is unreachable on `/health`. -/
theorem C5_amended (fs : FileState) (h : loadFails fs = true) :
    dispatch fs ⟨.GET, ["health"]⟩ =
      ⟨503, Json.obj [("status", Json.str "error"),
        ("message", Json.str "API is unhealthy or data source is unavailable.")]⟩ ∧
    (dispatch fs ⟨.GET, ["health"]⟩).status ≠ 500 := by
  cases fs with
  | validJson doc => simp [loadFails, load_faq_data] at h
  | absent => exact ⟨rfl, by decide⟩
  | invalidJson => exact ⟨rfl, by decide⟩
  | unreadable => exact ⟨rfl, by decide⟩

theorem C5_amended_witness :
    loadFails .unreadable = true ∧
    (dispatch .unreadable ⟨.GET, ["health"]⟩ =
      ⟨503, Json.obj [("status", Json.str "error"),
        ("message", Json.str "API is unhealthy or data source is unavailable.")]⟩ ∧
    (dispatch .unreadable ⟨.GET, ["health"]⟩).status ≠ 500) :=
  ⟨rfl, C5_amended .unreadable rfl⟩

/-- C6 counterexample: a file parsing to the array `[1, 2]` makes the
loader succeed with a non-object document, which `GET /api/faq` then
serves verbatim — contradicting the claim that a successful load always
yields an object and that no endpoint serves a non-object. -/
theorem C6_counterexample :
    load_faq_data (.validJson (Json.arr [Json.num 1, Json.num 2])) =
      .ok (Json.arr [Json.num 1, Json.num 2]) ∧
    Json.isObj (Json.arr [Json.num 1, Json.num 2]) = false ∧
    dispatch (.validJson (Json.arr [Json.num 1, Json.num 2])) ⟨.GET, ["api", "faq"]⟩ =
      ⟨200, Json.arr [Json.num 1, Json.num 2]⟩ := by
  exact ⟨rfl, rfl, rfl⟩

/-- C6 as amended: the loader performs no structural validation — it
returns exactly the value the file parses to, so the loaded document is
an object precisely when the file's JSON is an object; a file parsing to
an array or scalar also loads successfully and is served unchanged by
`GET /api/faq`. -/
theorem C6_amended (doc : Json) :
    load_faq_data (.validJson doc) = .ok doc ∧
    dispatch (.validJson doc) ⟨.GET, ["api", "faq"]⟩ = ⟨200, doc⟩ :=
  ⟨rfl, rfl⟩

/-- C7 counterexample: the missing-file failure and the malformed-JSON
failure both give 500, but their wire bodies are not identical — each
envelope's `message` carries the loader's kind-specific description, so
the two failure kinds are distinguishable at the wire boundary. -/
theorem C7_counterexample :
    (dispatch .absent ⟨.GET, ["api", "faq"]⟩).status = 500 ∧
    (dispatch .invalidJson ⟨.GET, ["api", "faq"]⟩).status = 500 ∧
    hasStrField (dispatch .absent ⟨.GET, ["api", "faq"]⟩).body "message"
      "Server configuration error: Data file \x27faq.json\x27 is missing." = true ∧
    hasStrField (dispatch .invalidJson ⟨.GET, ["api", "faq"]⟩).body "message"
      "Error decoding data from \x27faq.json\x27. Please check its format." = true ∧
    hasStrField (dispatch .invalidJson ⟨.GET, ["api", "faq"]⟩).body "message"
      "Server configuration error: Data file \x27faq.json\x27 is missing." = false := by
  decide

/-- C7 as amended: every loader failure kind is surfaced on the FAQ
endpoints as HTTP 500 with the generic envelope and error_code
`INTERNAL_SERVER_ERROR`, but the envelope's `message` carries the
kind-specific description — the three kinds produce three pairwise
distinct messages, so they are distinguishable at the wire boundary,
not only in the diagnostic log. -/
theorem C7_amended :
    (∀ fs, loadFails fs = true →
      (dispatch fs ⟨.GET, ["api", "faq"]⟩).status = 500 ∧
      hasStrField (dispatch fs ⟨.GET, ["api", "faq"]⟩).body
        "error_code" "INTERNAL_SERVER_ERROR" = true) ∧
    hasStrField (dispatch .absent ⟨.GET, ["api", "faq"]⟩).body "message"
      "Server configuration error: Data file \x27faq.json\x27 is missing." = true ∧
    hasStrField (dispatch .invalidJson ⟨.GET, ["api", "faq"]⟩).body "message"
      "Error decoding data from \x27faq.json\x27. Please check its format." = true ∧
    hasStrField (dispatch .unreadable ⟨.GET, ["api", "faq"]⟩).body "message"
      "An unexpected error occurred while trying to load data." = true ∧
    (("Server configuration error: Data file \x27faq.json\x27 is missing." ==
      "Error decoding data from \x27faq.json\x27. Please check its format.") = false) ∧
    (("Server configuration error: Data file \x27faq.json\x27 is missing." ==
      "An unexpected error occurred while trying to load data.") = false) ∧
    (("Error decoding data from \x27faq.json\x27. Please check its format." ==
      "An unexpected error occurred while trying to load data.") = false) := by
  refine ⟨?_, by decide, by decide, by decide, by decide, by decide, by decide⟩
  intro fs h
  cases fs with
  | validJson doc => simp [loadFails, load_faq_data] at h
  | absent => exact ⟨by decide, by decide⟩
  | invalidJson => exact ⟨by decide, by decide⟩
  | unreadable => exact ⟨by decide, by decide⟩

theorem C7_amended_witness :
    loadFails .absent = true ∧
    ((dispatch .absent ⟨.GET, ["api", "faq"]⟩).status = 500 ∧
    hasStrField (dispatch .absent ⟨.GET, ["api", "faq"]⟩).body
      "error_code" "INTERNAL_SERVER_ERROR" = true) :=
  ⟨rfl, C7_amended.1 .absent rfl⟩

/-- C8 counterexample: HEAD and OPTIONS are non-GET methods, yet on the
matched path `/api/faq` neither returns 405 — werkzeug auto-adds HEAD to
the GET rule (the GET view answers 200) and Flask auto-provides OPTIONS
(200), contradicting the claim's quantification over every non-GET
method. -/
theorem C8_counterexample :
    (dispatch (.validJson (Json.obj [])) ⟨.HEAD, ["api", "faq"]⟩).status = 200 ∧
    ((dispatch (.validJson (Json.obj [])) ⟨.HEAD, ["api", "faq"]⟩).status == 405) = false ∧
    (dispatch (.validJson (Json.obj [])) ⟨.OPTIONS, ["api", "faq"]⟩).status = 200 ∧
    ((dispatch (.validJson (Json.obj [])) ⟨.OPTIONS, ["api", "faq"]⟩).status == 405) = false := by
  decide

/-- C8 as amended: on a matched path, a method other than GET, HEAD and
OPTIONS gets 405 with the `METHOD_NOT_ALLOWED` envelope (message is
werkzeug's default `MethodNotAllowed` description); HEAD is answered
with the GET view's status (body suppressed), and OPTIONS is answered
200 with an empty body by the framework. -/
theorem C8_amended (fs : FileState) (m : Method) (p : List String)
    (r : RouteMatch) (hp : matchRoute p = some r)
    (hGET : m ≠ .GET) (hHEAD : m ≠ .HEAD) (hOPT : m ≠ .OPTIONS) :
    dispatch fs ⟨m, p⟩ =
      ⟨405, envelopeBody "METHOD_NOT_ALLOWED" methodNotAllowedDefaultDescription⟩ ∧
    (dispatch fs ⟨.HEAD, p⟩).status = (dispatch fs ⟨.GET, p⟩).status ∧
    dispatch fs ⟨.OPTIONS, p⟩ = ⟨200, Json.str ""⟩ := by
  unfold dispatch
  rw [hp]
  refine ⟨?_, rfl, rfl⟩
  cases m with
  | GET => exact absurd rfl hGET
  | HEAD => exact absurd rfl hHEAD
  | OPTIONS => exact absurd rfl hOPT
  | POST => rfl
  | PUT => rfl
  | DELETE => rfl
  | PATCH => rfl

theorem C8_amended_witness :
    matchRoute ["api", "faq"] = some RouteMatch.allFaq ∧
    Method.POST ≠ Method.GET ∧ Method.POST ≠ Method.HEAD ∧ Method.POST ≠ Method.OPTIONS ∧
    (dispatch (.validJson (Json.obj [])) ⟨.POST, ["api", "faq"]⟩ =
      ⟨405, envelopeBody "METHOD_NOT_ALLOWED" methodNotAllowedDefaultDescription⟩ ∧
    (dispatch (.validJson (Json.obj [])) ⟨.HEAD, ["api", "faq"]⟩).status =
      (dispatch (.validJson (Json.obj [])) ⟨.GET, ["api", "faq"]⟩).status ∧
    dispatch (.validJson (Json.obj [])) ⟨.OPTIONS, ["api", "faq"]⟩ = ⟨200, Json.str ""⟩) :=
  ⟨rfl, by decide, by decide, by decide,
    C8_amended (.validJson (Json.obj [])) .POST ["api", "faq"]
      RouteMatch.allFaq rfl (by decide) (by decide) (by decide)⟩

/-- C9: a request whose path matches no registered route gets a 404 with
the `NOT_FOUND` envelope (message is werkzeug's default `NotFound`
description), for any method and any file state. -/
theorem C9_unmatched_404 (fs : FileState) (m : Method) (p : List String)
    (hp : matchRoute p = none) :
    dispatch fs ⟨m, p⟩ =
      ⟨404, envelopeBody "NOT_FOUND" notFoundDefaultDescription⟩ := by
  unfold dispatch
  rw [hp]
  rfl

theorem C9_unmatched_404_witness :
    matchRoute ["nope"] = none ∧
    dispatch (.validJson (Json.obj [])) ⟨.GET, ["nope"]⟩ =
      ⟨404, envelopeBody "NOT_FOUND" notFoundDefaultDescription⟩ :=
  ⟨rfl, C9_unmatched_404 (.validJson (Json.obj [])) .GET ["nope"] rfl⟩
